import Mathlib

/-!
Verification of the embec software-timer core (src/swtimer/swtimersys.c and
src/swtimer/swtimer.c) against its natural-language specification.

The C sources are shallowly embedded: every `uint64_t` value is a `Nat`
together with an explicit reduction `% uint64_mod` (`2 ^ 64`) at each
operation where the 64-bit machine arithmetic can wrap; pointers to structs
become structure values passed and returned explicitly; the optional
hardware-polling callback becomes an `Option (Nat → Nat)` applied to the
`user_data_p` field.  Struct and function names follow the C sources.
-/

/-- Nanoseconds in one microsecond (`NS_IN_ONE_US` in swtimer.c). -/
def NS_IN_ONE_US : Nat := 1000

/-- Nanoseconds in one millisecond (`NS_IN_ONE_MS` in swtimer.c). -/
def NS_IN_ONE_MS : Nat := 1000000

/-- Nanoseconds in one second (`NS_IN_ONE_SECOND` in swtimer.c). -/
def NS_IN_ONE_SECOND : Nat := 1000000000

/-- Largest value representable in a `uint64_t`, i.e. `2 ^ 64 - 1`. -/
def UINT64_MAX : Nat := 18446744073709551615

/-- Modulus of 64-bit unsigned machine arithmetic, i.e. `2 ^ 64`. -/
def uint64_mod : Nat := 18446744073709551616

/-- The struct `swtimersys_t` of swtimersys.h.  The polling callback
`poll_cb` maps the opaque user-data pointer (modelled as a `Nat`) to a tick
value; `none` models a null callback pointer. -/
structure swtimersys_t where
  poll_cb : Option (Nat → Nat)
  tick_counter : Nat
  tick_duration_ns : Nat
  timer_width_bits : Nat
  timer_mask : Nat
  user_data_p : Nat

/-- `create_mask` of swtimersys.c: starting from `mask = 0`, repeat `bits`
times the body `mask <<= 1; mask |= 1` (the shift wraps at 64 bits). -/
def create_mask (bits : Nat) : Nat :=
  match bits with
  | 0 => 0
  | b + 1 => (create_mask b * 2 % uint64_mod) ||| 1

/-- `swtimersys_init` of swtimersys.c.  The definition in the C file takes
only four parameters (no user-data argument, unlike the five-parameter
declaration in swtimersys.h) and assigns `timer_mask`, `tick_counter`,
`tick_duration_ns` and `poll_cb`; the fields `timer_width_bits` and
`user_data_p` are left unwritten, so they keep whatever value `s` held
before the call. -/
def swtimersys_init (s : swtimersys_t) (tick_duration_ns : Nat)
    (timer_width_bits : Nat) (poll_cb : Option (Nat → Nat)) : swtimersys_t :=
  { s with
    timer_mask := create_mask timer_width_bits
    tick_counter := 0
    tick_duration_ns := tick_duration_ns
    poll_cb := poll_cb }

/-- `swtimersys_tick` of swtimersys.c: add `tick_count` to the counter in
64-bit arithmetic, then mask with `timer_mask`. -/
def swtimersys_tick (s : swtimersys_t) (tick_count : Nat) : swtimersys_t :=
  { s with
    tick_counter := ((s.tick_counter + tick_count) % uint64_mod) &&& s.timer_mask }

/-- `swtimersys_poll_timer` of swtimersys.c: the configured callback applied
to `user_data_p` when a callback is set, otherwise the internal counter. -/
def swtimersys_poll_timer (s : swtimersys_t) : Nat :=
  match s.poll_cb with
  | some cb => cb s.user_data_p
  | none => s.tick_counter

/-- `swtimersys_get_tick_duration_ns` of swtimersys.c. -/
def swtimersys_get_tick_duration_ns (s : swtimersys_t) : Nat :=
  s.tick_duration_ns

/-- `swtimersys_get_timer_mask` of swtimersys.c. -/
def swtimersys_get_timer_mask (s : swtimersys_t) : Nat :=
  s.timer_mask

/-- C6: for every `width_bits` in [2,64], the mask built by `create_mask` at
configuration time equals `2 ^ width_bits - 1`: exactly the `width_bits`
low-order bits are set and all higher bits are zero, and `width_bits = 64`
gives the all-ones 64-bit value without overflow. -/
theorem create_mask_eq_two_pow_sub_one (bits : Nat)
    (hlo : 2 ≤ bits) (hhi : bits ≤ 64) :
    create_mask bits = 2 ^ bits - 1 ∧
    (∀ i : Nat, (create_mask bits).testBit i = decide (i < bits)) := by
  have h : ∀ b : Nat, b < 65 → create_mask b = 2 ^ b - 1 := by decide
  have hb : create_mask bits = 2 ^ bits - 1 := h bits (by omega)
  refine ⟨hb, ?_⟩
  intro i
  rw [hb, Nat.testBit_two_pow_sub_one]

/-- C6 witness: instance of `create_mask_eq_two_pow_sub_one` at the
boundary width 64. -/
theorem create_mask_eq_two_pow_sub_one_witness :
    (2 ≤ 64 ∧ 64 ≤ 64) ∧
    (create_mask 64 = 2 ^ 64 - 1 ∧
      (∀ i : Nat, (create_mask 64).testBit i = decide (i < 64))) :=
  ⟨⟨by decide, by decide⟩,
    create_mask_eq_two_pow_sub_one 64 (by decide) (by decide)⟩

/-- C9: the internal counter is 0 after `swtimersys_init` (hence at most the
mask), and `swtimersys_tick` adds the delta to the counter in 64-bit
arithmetic and then masks with `timer_mask`, so the counter is at most
`timer_mask` after every advance operation. -/
theorem tick_counter_le_mask_invariant :
    (∀ s d w cb, (swtimersys_init s d w cb).tick_counter = 0) ∧
    (∀ s d w cb, (swtimersys_init s d w cb).tick_counter ≤
      (swtimersys_init s d w cb).timer_mask) ∧
    (∀ (s : swtimersys_t) (delta : Nat), (swtimersys_tick s delta).tick_counter =
      ((s.tick_counter + delta) % uint64_mod) &&& s.timer_mask) ∧
    (∀ (s : swtimersys_t) (delta : Nat), (swtimersys_tick s delta).timer_mask =
      s.timer_mask) ∧
    (∀ (s : swtimersys_t) (delta : Nat), (swtimersys_tick s delta).tick_counter ≤
      (swtimersys_tick s delta).timer_mask) := by
  refine ⟨fun s d w cb => rfl, fun s d w cb => Nat.zero_le _,
    fun s delta => rfl, fun s delta => rfl, fun s delta => ?_⟩
  exact Nat.and_le_right

/-- C8: the four-parameter `swtimersys_init` defined in swtimersys.c never
writes `user_data_p` (there is no parameter to configure it, although the
declaration in swtimersys.h has one), so after configuration with a poll
callback every `swtimersys_poll_timer` applies the callback to whatever
value the unwritten `user_data_p` field happened to hold before
initialization, not to a caller-configured context; without a callback the
internal counter is returned. -/
theorem poll_context_never_configured :
    (∀ s d w cb, (swtimersys_init s d w cb).user_data_p = s.user_data_p) ∧
    (∀ s d w f, swtimersys_poll_timer (swtimersys_init s d w (some f)) =
      f s.user_data_p) ∧
    (∀ s d w, swtimersys_poll_timer (swtimersys_init s d w none) =
      (swtimersys_init s d w none).tick_counter) :=
  ⟨fun _ _ _ _ => rfl, fun _ _ _ _ => rfl, fun _ _ _ => rfl⟩

/-- The enum value `SWTIMER_TIMERTICK` (= 0) of swtimer.h. -/
def SWTIMER_TIMERTICK : Nat := 0

/-- The enum value `SWTIMER_NS` (= 1) of swtimer.h. -/
def SWTIMER_NS : Nat := 1

/-- The enum value `SWTIMER_US` (= 2) of swtimer.h. -/
def SWTIMER_US : Nat := 2

/-- The enum value `SWTIMER_MS` (= 3) of swtimer.h. -/
def SWTIMER_MS : Nat := 3

/-- The enum value `SWTIMER_S` (= 4) of swtimer.h. -/
def SWTIMER_S : Nat := 4

/-- The struct `swtimer_starvation_tracking_t` of swtimer.h. -/
structure swtimer_starvation_tracking_t where
  invocation_limit : Nat
  invocation_count : Nat
  last_tick_count : Nat
deriving DecidableEq

/-- The struct `swtimer_t` of swtimer.h; `swtimersys_p` models the value the
timer-system pointer refers to. -/
structure swtimer_t where
  swtimersys_p : swtimersys_t
  start_tick_count : Nat
  tick_duration_ns : Nat
  timer_mask : Nat
  starvation_tracking : swtimer_starvation_tracking_t

/-- `init_starvation_tracking` of swtimer.c: it stores the initial tick
count into `last_tick_count` and writes no other tracking field. -/
def init_starvation_tracking (st : swtimer_starvation_tracking_t)
    (initial_tick_count : Nat) : swtimer_starvation_tracking_t :=
  { st with last_tick_count := initial_tick_count }

/-- `is_starvation_tracking_enabled` of swtimer.c. -/
def is_starvation_tracking_enabled
    (st : swtimer_starvation_tracking_t) : Bool :=
  0 != st.invocation_limit

/-- `manage_invocation_count` of swtimer.c: when the argument equals the
stored `last_tick_count` the invocation count increments (saturating at
`UINT64_MAX`), otherwise it resets to 0; `last_tick_count` is then updated
to the argument unconditionally. -/
def manage_invocation_count (st : swtimer_starvation_tracking_t)
    (tick_count : Nat) : swtimer_starvation_tracking_t :=
  let st1 :=
    if st.last_tick_count = tick_count then
      if st.invocation_count < UINT64_MAX then
        { st with invocation_count := st.invocation_count + 1 }
      else
        st
    else
      { st with invocation_count := 0 }
  { st1 with last_tick_count := tick_count }

/-- `is_timer_starving` of swtimer.c; the returned pair is the boolean
result together with the updated tracking state (the C function mutates the
state through the pointer). -/
def is_timer_starving (st : swtimer_starvation_tracking_t)
    (tick_count : Nat) : Bool × swtimer_starvation_tracking_t :=
  if !(is_starvation_tracking_enabled st) then
    (false, st)
  else
    let st1 := manage_invocation_count st tick_count
    (decide (st1.invocation_limit ≤ st1.invocation_count), st1)

/-- `get_elapsed_ticks` of swtimer.c.  The C subtractions are `uint64_t`
subtractions, written here as `(a + uint64_mod - b) % uint64_mod`, which for
`a, b < uint64_mod` is exactly the 64-bit machine result. -/
def get_elapsed_ticks (timer_mask start_tick_count tick_count : Nat) : Nat :=
  if start_tick_count ≤ tick_count then
    (tick_count + uint64_mod - start_tick_count) % uint64_mod
  else
    ((timer_mask + uint64_mod - start_tick_count) % uint64_mod
      + tick_count + 1) % uint64_mod

/-- `get_time_for_tick_count` of swtimer.c: the switch over the resolution;
the 64-bit product `tick_count * tick_duration_ns` wraps modulo `2 ^ 64`.
`SWTIMER_TIMERTICK` and every value outside the enum fall into the default
branch returning the tick count unchanged. -/
def get_time_for_tick_count (tick_duration_ns tick_count resolution : Nat) : Nat :=
  if resolution = SWTIMER_NS then
    tick_count * tick_duration_ns % uint64_mod
  else if resolution = SWTIMER_US then
    tick_count * tick_duration_ns % uint64_mod / NS_IN_ONE_US
  else if resolution = SWTIMER_MS then
    tick_count * tick_duration_ns % uint64_mod / NS_IN_ONE_MS
  else if resolution = SWTIMER_S then
    tick_count * tick_duration_ns % uint64_mod / NS_IN_ONE_SECOND
  else
    tick_count

/-- `swtimer_init` of swtimer.c: zero the whole struct, link the timer
system, copy tick duration and mask from it, and store the invocation
limit. -/
def swtimer_init (swtimersys : swtimersys_t) (invocation_limit : Nat) : swtimer_t :=
  { swtimersys_p := swtimersys
    start_tick_count := 0
    tick_duration_ns := swtimersys_get_tick_duration_ns swtimersys
    timer_mask := swtimersys_get_timer_mask swtimersys
    starvation_tracking :=
      { invocation_limit := invocation_limit
        invocation_count := 0
        last_tick_count := 0 } }

/-- `swtimer_start` of swtimer.c.  `sys` is the state of the bound timer
system at the moment of the call; the C code polls it through the stored
pointer. -/
def swtimer_start (t : swtimer_t) (sys : swtimersys_t) : swtimer_t :=
  { t with
    start_tick_count := swtimersys_poll_timer sys
    starvation_tracking :=
      init_starvation_tracking t.starvation_tracking
        (swtimersys_poll_timer sys) }

/-- `swtimer_get_time` of swtimer.c.  `sys` is the state of the bound timer
system at the moment of the call.  The result is the condition of the C
assertion (`true` means the call signals starvation), the returned time, and
the updated timer (the starvation tracking state is mutated through the
pointer).  Note the C code overwrites its `tick_count` local with the
elapsed tick count before handing it to `is_timer_starving`. -/
def swtimer_get_time (t : swtimer_t) (sys : swtimersys_t)
    (resolution : Nat) : Bool × Nat × swtimer_t :=
  let tick_count := get_elapsed_ticks t.timer_mask t.start_tick_count
    (swtimersys_poll_timer sys)
  let starving := is_timer_starving t.starvation_tracking tick_count
  (starving.1,
    get_time_for_tick_count t.tick_duration_ns tick_count resolution,
    { t with starvation_tracking := starving.2 })

/-- A sequence of `swtimer_get_time` calls at raw-tick resolution; the list
holds the state of the bound timer system at each call, and the result lists
whether each call signalled starvation. -/
def run_get_time (t : swtimer_t) (syss : List swtimersys_t) : List Bool :=
  match syss with
  | [] => []
  | sys :: rest =>
      (swtimer_get_time t sys SWTIMER_TIMERTICK).1 ::
        run_get_time (swtimer_get_time t sys SWTIMER_TIMERTICK).2.2 rest

/-- Any power of two up to `2 ^ 64` is at most the 64-bit modulus. -/
lemma two_pow_le_uint64 (W : Nat) (h : W ≤ 64) : 2 ^ W ≤ uint64_mod := by
  calc 2 ^ W ≤ 2 ^ 64 := Nat.pow_le_pow_right (by norm_num) h
    _ = uint64_mod := by norm_num [uint64_mod]

/-- Core wraparound lemma: on inputs bounded by the configured width, the
branchy 64-bit computation of `get_elapsed_ticks` equals the forward modular
distance `(2 ^ W + c - s) % 2 ^ W`. -/
lemma get_elapsed_ticks_eq (W s c : Nat) (hW : W ≤ 64)
    (hs : s < 2 ^ W) (hc : c < 2 ^ W) :
    get_elapsed_ticks (2 ^ W - 1) s c = (2 ^ W + c - s) % 2 ^ W := by
  have hle : 2 ^ W ≤ uint64_mod := two_pow_le_uint64 W hW
  simp only [get_elapsed_ticks, uint64_mod] at hle ⊢
  by_cases h : s ≤ c
  · rw [if_pos h]
    have e1 : c + 18446744073709551616 - s = 18446744073709551616 + (c - s) := by
      omega
    rw [e1, Nat.add_mod_left, Nat.mod_eq_of_lt (by omega : c - s < 18446744073709551616)]
    have e2 : 2 ^ W + c - s = 2 ^ W + (c - s) := by omega
    rw [e2, Nat.add_mod_left, Nat.mod_eq_of_lt (by omega : c - s < 2 ^ W)]
  · rw [if_neg h]
    have e3 : 2 ^ W - 1 + 18446744073709551616 - s =
        18446744073709551616 + (2 ^ W - 1 - s) := by omega
    rw [e3, Nat.add_mod_left,
      Nat.mod_eq_of_lt (by omega : 2 ^ W - 1 - s < 18446744073709551616)]
    have e4 : 2 ^ W - 1 - s + c + 1 = 2 ^ W + c - s := by omega
    rw [e4, Nat.mod_eq_of_lt (by omega : 2 ^ W + c - s < 18446744073709551616),
      Nat.mod_eq_of_lt (by omega : 2 ^ W + c - s < 2 ^ W)]

/-- C1: for every width `W` in [2,64] and all `s, c` below `2 ^ W`, the
elapsed-tick computation used by `swtimer_get_time` returns
`(c - s) mod 2 ^ W` (written as `(2 ^ W + c - s) % 2 ^ W` over `Nat`); in
particular it returns 0 when `c = s` and `2 ^ W - 1` when
`c = (s - 1) mod 2 ^ W`. -/
theorem get_elapsed_ticks_wraparound (W s c : Nat)
    (hW2 : 2 ≤ W) (hW64 : W ≤ 64) (hs : s < 2 ^ W) (hc : c < 2 ^ W) :
    get_elapsed_ticks (2 ^ W - 1) s c = (2 ^ W + c - s) % 2 ^ W ∧
    get_elapsed_ticks (2 ^ W - 1) s s = 0 ∧
    get_elapsed_ticks (2 ^ W - 1) s ((s + (2 ^ W - 1)) % 2 ^ W) = 2 ^ W - 1 := by
  have hpos : 0 < 2 ^ W := Nat.pow_pos (by norm_num)
  refine ⟨get_elapsed_ticks_eq W s c hW64 hs hc, ?_, ?_⟩
  · rw [get_elapsed_ticks_eq W s s hW64 hs hs]
    have e : 2 ^ W + s - s = 2 ^ W := by omega
    rw [e, Nat.mod_self]
  · have hc0 : (s + (2 ^ W - 1)) % 2 ^ W < 2 ^ W := Nat.mod_lt _ hpos
    rw [get_elapsed_ticks_eq W s _ hW64 hs hc0]
    rcases Nat.eq_zero_or_pos s with h0 | h0
    · subst h0
      have e : (0 + (2 ^ W - 1)) % 2 ^ W = 2 ^ W - 1 := by
        rw [Nat.zero_add, Nat.mod_eq_of_lt (by omega)]
      rw [e]
      have e2 : 2 ^ W + (2 ^ W - 1) - 0 = 2 ^ W + (2 ^ W - 1) := by omega
      rw [e2, Nat.add_mod_left, Nat.mod_eq_of_lt (by omega)]
    · have e : (s + (2 ^ W - 1)) % 2 ^ W = s - 1 := by
        have e1 : s + (2 ^ W - 1) = 2 ^ W + (s - 1) := by omega
        rw [e1, Nat.add_mod_left, Nat.mod_eq_of_lt (by omega)]
      rw [e]
      have e2 : 2 ^ W + (s - 1) - s = 2 ^ W - 1 := by omega
      rw [e2, Nat.mod_eq_of_lt (by omega)]

/-- C1 witness: instance of `get_elapsed_ticks_wraparound` at width 8 with
start tick 250 and current tick 2 (the wrapped scenario of the spec, where
the elapsed count is 8). -/
theorem get_elapsed_ticks_wraparound_witness :
    (2 ≤ 8 ∧ 8 ≤ 64 ∧ 250 < 2 ^ 8 ∧ 2 < 2 ^ 8) ∧
    (get_elapsed_ticks (2 ^ 8 - 1) 250 2 = (2 ^ 8 + 2 - 250) % 2 ^ 8 ∧
      get_elapsed_ticks (2 ^ 8 - 1) 250 250 = 0 ∧
      get_elapsed_ticks (2 ^ 8 - 1) 250 ((250 + (2 ^ 8 - 1)) % 2 ^ 8) = 2 ^ 8 - 1) :=
  ⟨⟨by decide, by decide, by decide, by decide⟩,
    get_elapsed_ticks_wraparound 8 250 2 (by decide) (by decide)
      (by decide) (by decide)⟩

/-- An arbitrary pre-initialization `swtimersys_t` value, modelling the
memory a timer-system struct occupies before `swtimersys_init` runs; the
stale `user_data_p` value 7 is visible after initialization because the
initializer never writes that field. -/
def sys_uninit : swtimersys_t :=
  { poll_cb := none
    tick_counter := 0
    tick_duration_ns := 0
    timer_width_bits := 0
    timer_mask := 0
    user_data_p := 7 }

/-- An 8-bit timer system (tick duration 1000 ns) advanced to counter value
5 and then left static. -/
def sys8_at5 : swtimersys_t :=
  swtimersys_tick (swtimersys_init sys_uninit 1000 8 none) 5

/-- An 8-bit timer system advanced to counter value 1. -/
def sys8_at1 : swtimersys_t :=
  swtimersys_tick (swtimersys_init sys_uninit 1000 8 none) 1

/-- The system `sys8_at1` advanced one further tick, to counter value 2. -/
def sys8_at2 : swtimersys_t :=
  swtimersys_tick sys8_at1 1

/-- When starvation tracking is disabled, `is_timer_starving` returns
`false` and leaves the tracking state untouched. -/
lemma is_timer_starving_disabled (st : swtimer_starvation_tracking_t)
    (h : st.invocation_limit = 0) (x : Nat) :
    is_timer_starving st x = (false, st) := by
  simp [is_timer_starving, is_starvation_tracking_enabled, h]

/-- When starvation tracking is disabled, `swtimer_get_time` never signals
starvation and returns the timer unchanged. -/
lemma swtimer_get_time_disabled (t : swtimer_t)
    (h : t.starvation_tracking.invocation_limit = 0)
    (sys : swtimersys_t) (r : Nat) :
    (swtimer_get_time t sys r).1 = false ∧
      (swtimer_get_time t sys r).2.2 = t := by
  have hd := is_timer_starving_disabled t.starvation_tracking h
    (get_elapsed_ticks t.timer_mask t.start_tick_count
      (swtimersys_poll_timer sys))
  constructor
  · simp [swtimer_get_time, hd]
  · simp [swtimer_get_time, hd]

/-- C7: a timer whose `invocation_limit` is 0 never signals starvation: a
whole sequence of `swtimer_get_time` calls, against arbitrary timer-system
states, yields `false` at every call. -/
theorem starvation_disabled_never_signals (t : swtimer_t)
    (h : t.starvation_tracking.invocation_limit = 0)
    (syss : List swtimersys_t) :
    run_get_time t syss = List.replicate syss.length false := by
  induction syss generalizing t with
  | nil => rfl
  | cons sys rest ih =>
      have hd := swtimer_get_time_disabled t h sys SWTIMER_TIMERTICK
      simp only [run_get_time, hd.1, hd.2, List.length_cons,
        List.replicate_succ, List.cons.injEq]
      exact ⟨trivial, ih t h⟩

/-- C7 witness: instance of `starvation_disabled_never_signals` for a timer
initialized with limit 0 and three static-tick queries. -/
theorem starvation_disabled_never_signals_witness :
    (swtimer_init sys8_at5 0).starvation_tracking.invocation_limit = 0 ∧
    run_get_time (swtimer_start (swtimer_init sys8_at5 0) sys8_at5)
      [sys8_at5, sys8_at5, sys8_at5] = List.replicate 3 false :=
  ⟨by decide,
    starvation_disabled_never_signals
      (swtimer_start (swtimer_init sys8_at5 0) sys8_at5)
      (by decide) [sys8_at5, sys8_at5, sys8_at5]⟩

/-- C2 (code behavior at the failing inputs): with `invocation_limit = 1`
and the tick source held static at 5 from `start()` on, the 1st (= Nth)
`swtimer_get_time` call does not signal starvation (the elapsed count 0
differs from the stored start tick 5, so the count resets); only the 2nd
call signals.  With `invocation_limit = 1` and an advancing source (start
tick 1, next read 2), the very first call signals starvation even though
the source advances, because the elapsed count 1 coincides with the stored
start tick 1. -/
theorem starvation_threshold_code_behavior :
    run_get_time (swtimer_start (swtimer_init sys8_at5 1) sys8_at5)
      [sys8_at5, sys8_at5] = [false, true] ∧
    run_get_time (swtimer_start (swtimer_init sys8_at1 1) sys8_at1)
      [sys8_at2] = [true] := by
  constructor
  · decide
  · decide

/-- C3 (code behavior at the failing input): starting at tick 5 and sampling
current tick 5 again, the freshly sampled current tick (5) equals the stored
`last_tick_count` (5), so per the claim the invocation count must increment
and `last_tick_count` stay 5; instead the code hands the derived elapsed
count 0 to the tracking, which resets the invocation count to 0 and stores 0
into `last_tick_count`. -/
theorem starvation_compares_elapsed_not_current :
    swtimersys_poll_timer sys8_at5 = 5 ∧
    (swtimer_start (swtimer_init sys8_at5 3) sys8_at5).starvation_tracking.last_tick_count = 5 ∧
    (swtimer_get_time (swtimer_start (swtimer_init sys8_at5 3) sys8_at5)
      sys8_at5 SWTIMER_TIMERTICK).2.2.starvation_tracking.last_tick_count = 0 ∧
    (swtimer_get_time (swtimer_start (swtimer_init sys8_at5 3) sys8_at5)
      sys8_at5 SWTIMER_TIMERTICK).2.2.starvation_tracking.invocation_count = 0 := by
  refine ⟨by decide, by decide, by decide, by decide⟩

/-- A timer that has already accumulated invocation count 5 (limit 2, stale
`last_tick_count` 7), used to show what `swtimer_start` resets. -/
def timer_with_count5 : swtimer_t :=
  { swtimersys_p := sys8_at5
    start_tick_count := 0
    tick_duration_ns := 1000
    timer_mask := 255
    starvation_tracking :=
      { invocation_limit := 2
        invocation_count := 5
        last_tick_count := 7 } }

/-- C4 (code behavior at the failing input): `swtimer_start` stores the
newly sampled start tick into `last_tick_count` but leaves
`invocation_count` exactly as it was — for every timer and every source
state — so a timer restarted with accumulated count 5 still has count 5,
not 0. -/
theorem swtimer_start_keeps_invocation_count :
    (∀ (t : swtimer_t) (sys : swtimersys_t),
      (swtimer_start t sys).starvation_tracking.invocation_count =
        t.starvation_tracking.invocation_count) ∧
    (swtimer_start timer_with_count5 sys8_at5).starvation_tracking.invocation_count = 5 ∧
    (swtimer_start timer_with_count5 sys8_at5).starvation_tracking.last_tick_count = 5 ∧
    (5 : Nat) ≠ 0 := by
  refine ⟨fun t sys => rfl, by decide, by decide, by decide⟩

/-- C5 counterexample: at tick duration 4 ns and elapsed count `2 ^ 62` the
64-bit product wraps to 0, so the nanosecond conversion returns 0, not
`t * d = 2 ^ 64`. -/
theorem get_time_ns_overflow_counterexample :
    get_time_for_tick_count 4 4611686018427387904 SWTIMER_NS = 0 ∧
    (4611686018427387904 * 4 : Nat) ≠ 0 := by
  refine ⟨by decide, by decide⟩

/-- C5 (amended): when the product `t * d` fits in 64 bits, the conversion
returns `t * d` for nanoseconds, `t * d / 1000` for microseconds,
`t * d / 1000000` for milliseconds, `t * d / 1000000000` for seconds, and
`t` unchanged for the raw-tick resolution, all by truncating integer
division. -/
theorem get_time_resolution_conversion (d t : Nat)
    (h : t * d < uint64_mod) :
    get_time_for_tick_count d t SWTIMER_NS = t * d ∧
    get_time_for_tick_count d t SWTIMER_US = t * d / 1000 ∧
    get_time_for_tick_count d t SWTIMER_MS = t * d / 1000000 ∧
    get_time_for_tick_count d t SWTIMER_S = t * d / 1000000000 ∧
    get_time_for_tick_count d t SWTIMER_TIMERTICK = t := by
  have hm : t * d % uint64_mod = t * d := Nat.mod_eq_of_lt h
  refine ⟨?_, ?_, ?_, ?_, ?_⟩ <;>
    simp [get_time_for_tick_count, SWTIMER_TIMERTICK, SWTIMER_NS, SWTIMER_US,
      SWTIMER_MS, SWTIMER_S, NS_IN_ONE_US, NS_IN_ONE_MS, NS_IN_ONE_SECOND, hm]

/-- C5 witness: instance of `get_time_resolution_conversion` at tick
duration 1000 ns and elapsed count 8 (the spec scenario, 8 µs). -/
theorem get_time_resolution_conversion_witness :
    (8 * 1000 : Nat) < uint64_mod ∧
    (get_time_for_tick_count 1000 8 SWTIMER_NS = 8 * 1000 ∧
      get_time_for_tick_count 1000 8 SWTIMER_US = 8 * 1000 / 1000 ∧
      get_time_for_tick_count 1000 8 SWTIMER_MS = 8 * 1000 / 1000000 ∧
      get_time_for_tick_count 1000 8 SWTIMER_S = 8 * 1000 / 1000000000 ∧
      get_time_for_tick_count 1000 8 SWTIMER_TIMERTICK = 8) :=
  ⟨by decide, get_time_resolution_conversion 1000 8 (by decide)⟩

/-- C10: every resolution value outside the five enum values falls into the
default branch of the conversion switch and returns the raw elapsed tick
count, identical to the raw-tick resolution. -/
theorem default_resolution_returns_ticks (d t r : Nat)
    (hr0 : r ≠ SWTIMER_TIMERTICK) (hr1 : r ≠ SWTIMER_NS)
    (hr2 : r ≠ SWTIMER_US) (hr3 : r ≠ SWTIMER_MS) (hr4 : r ≠ SWTIMER_S) :
    get_time_for_tick_count d t r = t ∧
    get_time_for_tick_count d t r = get_time_for_tick_count d t SWTIMER_TIMERTICK := by
  constructor <;>
    simp [get_time_for_tick_count, SWTIMER_TIMERTICK, SWTIMER_NS, SWTIMER_US,
      SWTIMER_MS, SWTIMER_S] at hr0 hr1 hr2 hr3 hr4 ⊢ <;>
    simp [hr1, hr2, hr3, hr4]

/-- C10 witness: instance of `default_resolution_returns_ticks` at the
undefined resolution value 7. -/
theorem default_resolution_returns_ticks_witness :
    ((7 : Nat) ≠ SWTIMER_TIMERTICK ∧ (7 : Nat) ≠ SWTIMER_NS ∧
      (7 : Nat) ≠ SWTIMER_US ∧ (7 : Nat) ≠ SWTIMER_MS ∧ (7 : Nat) ≠ SWTIMER_S) ∧
    (get_time_for_tick_count 1000 5 7 = 5 ∧
      get_time_for_tick_count 1000 5 7 = get_time_for_tick_count 1000 5 SWTIMER_TIMERTICK) :=
  ⟨⟨by decide, by decide, by decide, by decide, by decide⟩,
    default_resolution_returns_ticks 1000 5 7 (by decide) (by decide)
      (by decide) (by decide) (by decide)⟩
